import Mathlib

/-!
Shallow embedding of the pomodoro terminal timer (src/main.go, two program
variants in one file) together with the semantics of the imported
charmbracelet bubbles timer and progress components that the code calls into.
Durations are modelled as Int nanoseconds (Go time.Duration), floating-point
percentages as exact rationals, and the bubbletea message loop as explicit
message-by-message state transition functions step1 (variant 1) and step2
(variant 2).
-/

namespace Pomodoro

/-- Keys the program's key bindings react to (src/main.go key.NewBinding calls):
s and space (start and stop share both keys), r (reset), q and ctrl+c (quit),
p (start break), w (start work), and a catch-all for any other key. -/
inductive Key
  | keyS
  | keySpace
  | keyR
  | keyQ
  | keyCtrlC
  | keyP
  | keyW
  | keyOther
deriving DecidableEq

/-- Messages delivered to model.Update: the bubbles timer's TickMsg,
StartStopMsg and TimeoutMsg (each carrying the timer id; StartStopMsg also
carries the running flag it sets), tea.KeyMsg, progress.FrameMsg,
tea.WindowSizeMsg, and the program's own one-minute tickMsg (which
model.Update has no case for and therefore ignores). -/
inductive Msg
  | timerTick (id : Int)
  | startStop (id : Int) (run : Bool)
  | timerTimeout (id : Int)
  | keyMsg (k : Key)
  | frame
  | resize (width : Int)
  | minuteTick
deriving DecidableEq

/-- Nanoseconds in one second: Go's time.Second as an int64 duration. -/
def nsPerSecond : Int := 1000000000

/-- Variant 1's work duration: const timeout = time.Second * 20 (line 16). -/
def timeoutC1 : Int := 20 * nsPerSecond

/-- Break duration: time.Minute * 5 (line 17, and the local pause at line 302). -/
def breakTimeC : Int := 5 * 60 * nsPerSecond

/-- Variant 2's work duration: var timeout = time.Minute * 25 (line 225). -/
def timeoutC2 : Int := 25 * 60 * nsPerSecond

/-- Go's Duration.Seconds(): the duration divided by one second, as a real
number (modelled exactly in the rationals). -/
def secondsQ (d : Int) : ℚ := (d : ℚ) / (nsPerSecond : ℚ)

/-- Embedding of the bubbles timer.Model as used by the code: Timeout is the
remaining duration, Interval the per-tick decrement, running the raw
start-stop flag, id the instance identifier handed out by the package
counter. -/
structure TimerM where
  timeoutD : Int
  interval : Int
  running : Bool
  id : Int
deriving DecidableEq

/-- timer.Model.Timedout(): remaining duration is at most zero. -/
def TimerM.timedoutB (t : TimerM) : Bool := decide (t.timeoutD ≤ 0)

/-- timer.Model.Running(): false when timed out or explicitly stopped. -/
def TimerM.runningB (t : TimerM) : Bool := !t.timedoutB && t.running

/-- timer.NewWithInterval: a fresh timer holding the given timeout and
interval, created running, with the next package id. -/
def timerNewWithInterval (newId timeoutD interval : Int) : TimerM :=
  { timeoutD := timeoutD, interval := interval, running := true, id := newId }

/-- timer.New: NewWithInterval with a one-second interval. -/
def timerNew (newId timeoutD : Int) : TimerM :=
  timerNewWithInterval newId timeoutD nsPerSecond

/-- timer.Model.Update: a StartStopMsg addressed to this timer sets the raw
running flag; a TickMsg addressed to this timer decrements Timeout by
Interval provided Running() holds; every other message (including
TimeoutMsg) leaves the timer unchanged. -/
def TimerM.update (t : TimerM) : Msg → TimerM
  | Msg.startStop i r =>
      if i ≠ 0 ∧ i ≠ t.id then t else { t with running := r }
  | Msg.timerTick i =>
      if i ≠ 0 ∧ i ≠ t.id then t
      else if t.runningB = false then t
      else { t with timeoutD := t.timeoutD - t.interval }
  | _ => t

/-- Payload of the message the tea.Cmd returned by timer.Model.Start()
eventually delivers. -/
def TimerM.startMsg (t : TimerM) : Msg := Msg.startStop t.id true

/-- Payload of the message the tea.Cmd returned by timer.Model.Stop()
eventually delivers. -/
def TimerM.stopMsg (t : TimerM) : Msg := Msg.startStop t.id false

/-- Payload of the message the tea.Cmd returned by timer.Model.Toggle()
eventually delivers: start-stop with the negation of Running(). -/
def TimerM.toggleMsg (t : TimerM) : Msg := Msg.startStop t.id (!t.runningB)

/-- Observable clock state in the vocabulary of the specification's Duration
Clock: remaining span, the running flag (timer.Running(), which the spec
requires to be false once timed out), and the timed-out flag. -/
structure ClockObs where
  remaining : Int
  running : Bool
  timedOut : Bool
deriving DecidableEq

/-- Projection of a timer onto the specification's observable clock state. -/
def TimerM.obs (t : TimerM) : ClockObs :=
  { remaining := t.timeoutD, running := t.runningB, timedOut := t.timedoutB }

/-- Enabled flags of the six key bindings in the model's keymap. Only the
start and stop flags are ever mutated by the program; key.Matches consults
the flag of the binding it tests. -/
structure Keymap where
  startE : Bool
  stopE : Bool
  resetE : Bool
  quitE : Bool
  pauseE : Bool
  workE : Bool
deriving DecidableEq

/-- Keys of the start binding: s and space (key.Matches string comparison). -/
def startKeyHit (k : Key) : Bool :=
  decide (k = Key.keyS) || decide (k = Key.keySpace)

/-- Keys of the stop binding: s and space. -/
def stopKeyHit (k : Key) : Bool :=
  decide (k = Key.keyS) || decide (k = Key.keySpace)

/-- Keys of the reset binding: r. -/
def resetKeyHit (k : Key) : Bool := decide (k = Key.keyR)

/-- Keys of the quit binding: q and ctrl+c. -/
def quitKeyHit (k : Key) : Bool :=
  decide (k = Key.keyQ) || decide (k = Key.keyCtrlC)

/-- Keys of the pauseTimer (start break) binding: p. -/
def pauseKeyHit (k : Key) : Bool := decide (k = Key.keyP)

/-- Keys of the workTimer (start work) binding: w. -/
def workKeyHit (k : Key) : Bool := decide (k = Key.keyW)

/-- Embedding of the bubbles progress.Model state the program observes: the
target percentage SetPercent stores (clamped into the unit interval by
SetPercent itself) and the bar width. -/
structure ProgressM where
  targetPercent : ℚ
  width : Int
deriving DecidableEq

/-- Clamp a rational into the unit interval, as math.Max(0, math.Min(1, p)). -/
def clamp01 (p : ℚ) : ℚ := max 0 (min 1 p)

/-- progress.Model.SetPercent: stores the clamped argument as the target
percentage (the returned animation command is display-only). -/
def ProgressM.setPercent (pr : ProgressM) (p : ℚ) : ProgressM :=
  { pr with targetPercent := clamp01 p }

/-- The program's model struct: timer, keymap enabled flags, quitting flag,
progress component (help-view state carries no data relevant here). -/
structure Model where
  timer : TimerM
  keymap : Keymap
  quitting : Bool
  progress : ProgressM
deriving DecidableEq

/-- Full state of variant 1 (lines 1-209): the model together with the
package-level mutable variables percent and start (the wall-clock instant the
elapsed time is measured from, in nanoseconds), plus a ghost field target
recording the duration most recently installed as the clock's full span
(initially the work constant; reassigned exactly where the code assigns
m.timer.Timeout), used only to state the specification's invariant. -/
structure World1 where
  m : Model
  percent : ℚ
  startT : Int
  target : Int
deriving DecidableEq

/-- WindowSizeMsg handling shared by both variants (lines 116-121 and
316-321): width minus padding, capped at maxWidth = 80. -/
def resizeWidth (width : Int) : Int :=
  if width - 2 * 2 - 4 > 80 then 80 else width - 2 * 2 - 4

/-- model.Update of variant 1 (lines 56-127), one delivered message at a
time; now is the ambient wall-clock reading (time.Now / time.Since) at the
moment the message is processed. TickMsg: the timer is updated, then percent
is recomputed as wall-clock elapsed over the 20-second constant and pushed
into the progress bar. StartStopMsg and TimeoutMsg update the timer and
rederive the start and stop enabled flags from Running(); TimeoutMsg also
sets quitting. Key messages dispatch through key.Matches (binding enabled and
key in the binding's key set): quit sets quitting; reset assigns
m.timer.Timeout = timeout, zeroes percent, restarts the wall clock and
disables the start binding (the Stop and Init commands it builds are
discarded, so the raw running flag is untouched); s or space leaves the state
unchanged (Toggle only emits a command); p assigns m.timer.Timeout =
breakTime (Start only emits a command); w assigns m.timer.Timeout = timeout
likewise. FrameMsg animates the progress bar only; WindowSizeMsg sets the
bar width; the stray minute tickMsg has no case and is dropped. -/
def step1 (w : World1) (now : Int) : Msg → World1
  | Msg.timerTick i =>
      { w with
        m := { w.m with
                timer := w.m.timer.update (Msg.timerTick i),
                progress := w.m.progress.setPercent
                  (secondsQ (now - w.startT) / secondsQ timeoutC1) },
        percent := secondsQ (now - w.startT) / secondsQ timeoutC1 }
  | Msg.startStop i b =>
      { w with
        m := { w.m with
                timer := w.m.timer.update (Msg.startStop i b),
                keymap := { w.m.keymap with
                  stopE := (w.m.timer.update (Msg.startStop i b)).runningB,
                  startE := !(w.m.timer.update (Msg.startStop i b)).runningB } } }
  | Msg.timerTimeout i =>
      { w with
        m := { w.m with
                timer := w.m.timer.update (Msg.timerTimeout i),
                quitting := true,
                keymap := { w.m.keymap with
                  stopE := (w.m.timer.update (Msg.timerTimeout i)).runningB,
                  startE := !(w.m.timer.update (Msg.timerTimeout i)).runningB } } }
  | Msg.keyMsg k =>
      if w.m.keymap.quitE && quitKeyHit k then
        { w with m := { w.m with quitting := true } }
      else if w.m.keymap.resetE && resetKeyHit k then
        { w with
          m := { w.m with
                  timer := { w.m.timer with timeoutD := timeoutC1 },
                  keymap := { w.m.keymap with startE := false } },
          percent := 0,
          startT := now,
          target := timeoutC1 }
      else if (w.m.keymap.startE && startKeyHit k)
          || (w.m.keymap.stopE && stopKeyHit k) then
        w
      else if w.m.keymap.pauseE && pauseKeyHit k then
        { w with
          m := { w.m with timer := { w.m.timer with timeoutD := breakTimeC } },
          target := breakTimeC }
      else if w.m.keymap.workE && workKeyHit k then
        { w with
          m := { w.m with timer := { w.m.timer with timeoutD := timeoutC1 } },
          target := timeoutC1 }
      else w
  | Msg.resize width =>
      { w with
        m := { w.m with
                progress := { w.m.progress with width := resizeWidth width } } }
  | _ => w

/-- Initial state of variant 1 as built by main (lines 167-204): a running
20-second timer with one-second interval and id 1, all bindings enabled
except start (disabled at line 203), percent 0, wall-clock origin 0, a
40-wide progress bar at 0. -/
def world1Init : World1 :=
  { m := { timer := timerNewWithInterval 1 timeoutC1 nsPerSecond,
           keymap := { startE := false, stopE := true, resetE := true,
                       quitE := true, pauseE := true, workE := true },
           quitting := false,
           progress := { targetPercent := 0, width := 40 } },
    percent := 0,
    startT := 0,
    target := timeoutC1 }

/-- States of variant 1 reachable from the initial state under any sequence
of delivered messages at any wall-clock instants. -/
inductive Reach1 : World1 → Prop
  | init : Reach1 world1Init
  | step (w : World1) (now : Int) (msg : Msg) :
      Reach1 w → Reach1 (step1 w now msg)

/-- Full state of variant 2 (lines 210-421): the model together with the
package-level mutable variables percent and timeout (var, reassigned only in
the w handler), and the bubbles timer package's id counter lastID feeding
timer.New. -/
structure World2 where
  m : Model
  percent : ℚ
  timeoutVar : Int
  lastID : Int
deriving DecidableEq

/-- Percent expression of variant 2's TickMsg handler (line 264):
(timeout.Seconds() - remaining.Seconds()) / timeout.Seconds(). -/
def percentV2 (timeoutVar r : Int) : ℚ :=
  (secondsQ timeoutVar - secondsQ r) / secondsQ timeoutVar

/-- model.Update of variant 2 (lines 260-327), one delivered message at a
time. TickMsg: percent is recomputed from the timer's remaining time before
the timer is updated, pushed into the progress bar, then the timer is
updated. StartStopMsg and TimeoutMsg are as in variant 1. Key messages: quit
sets quitting; reset zeroes the progress target, replaces the timer with
timer.New(timeout) (created running; the Stop command it returns is only
delivered later) and enables the start binding; s or space leaves the state
unchanged (Toggle only emits a command); p zeroes the progress target and
replaces the timer with timer.New(five minutes); w zeroes the progress
target, reassigns the timeout variable and replaces the timer with
timer.New(timeout); FrameMsg, WindowSizeMsg and the stray minute tickMsg are
as in variant 1. -/
def step2 (w : World2) : Msg → World2
  | Msg.timerTick i =>
      { w with
        m := { w.m with
                timer := w.m.timer.update (Msg.timerTick i),
                progress := w.m.progress.setPercent
                  (percentV2 w.timeoutVar w.m.timer.timeoutD) },
        percent := percentV2 w.timeoutVar w.m.timer.timeoutD }
  | Msg.startStop i b =>
      { w with
        m := { w.m with
                timer := w.m.timer.update (Msg.startStop i b),
                keymap := { w.m.keymap with
                  stopE := (w.m.timer.update (Msg.startStop i b)).runningB,
                  startE := !(w.m.timer.update (Msg.startStop i b)).runningB } } }
  | Msg.timerTimeout i =>
      { w with
        m := { w.m with
                timer := w.m.timer.update (Msg.timerTimeout i),
                quitting := true,
                keymap := { w.m.keymap with
                  stopE := (w.m.timer.update (Msg.timerTimeout i)).runningB,
                  startE := !(w.m.timer.update (Msg.timerTimeout i)).runningB } } }
  | Msg.keyMsg k =>
      if w.m.keymap.quitE && quitKeyHit k then
        { w with m := { w.m with quitting := true } }
      else if w.m.keymap.resetE && resetKeyHit k then
        { w with
          m := { w.m with
                  progress := w.m.progress.setPercent 0,
                  timer := timerNew (w.lastID + 1) w.timeoutVar,
                  keymap := { w.m.keymap with startE := true } },
          lastID := w.lastID + 1 }
      else if (w.m.keymap.startE && startKeyHit k)
          || (w.m.keymap.stopE && stopKeyHit k) then
        w
      else if w.m.keymap.pauseE && pauseKeyHit k then
        { w with
          m := { w.m with
                  progress := w.m.progress.setPercent 0,
                  timer := timerNew (w.lastID + 1) breakTimeC },
          lastID := w.lastID + 1 }
      else if w.m.keymap.workE && workKeyHit k then
        { w with
          m := { w.m with
                  progress := w.m.progress.setPercent 0,
                  timer := timerNew (w.lastID + 1) timeoutC2 },
          timeoutVar := timeoutC2,
          lastID := w.lastID + 1 }
      else w
  | Msg.resize width =>
      { w with
        m := { w.m with
                progress := { w.m.progress with width := resizeWidth width } } }
  | _ => w

/-- Initial state of variant 2 as built by main (lines 380-415): a running
25-minute timer with id 1, all bindings enabled except stop (disabled at line
415), percent 0, timeout variable at 25 minutes, id counter at 1. -/
def world2Init : World2 :=
  { m := { timer := timerNew 1 timeoutC2,
           keymap := { startE := true, stopE := false, resetE := true,
                       quitE := true, pauseE := true, workE := true },
           quitting := false,
           progress := { targetPercent := 0, width := 40 } },
    percent := 0,
    timeoutVar := timeoutC2,
    lastID := 1 }

/-- Helper: a timed-out timer is never observed running (definition of
Running() in the bubbles timer). -/
theorem timedout_not_running (t : TimerM) (h : t.timedoutB = true) :
    t.runningB = false := by
  simp [TimerM.runningB, h]

/-- Helper: for a timer whose remaining duration is nonnegative, the
timed-out flag holds exactly at zero remaining. -/
theorem timedout_iff_zero (t : TimerM) (h : 0 ≤ t.timeoutD) :
    (t.timedoutB = true ↔ t.timeoutD = 0) := by
  simp only [TimerM.timedoutB, decide_eq_true_eq]
  omega

/-- Inductive invariant of variant 1 used to prove the clock invariant:
the remaining duration is nonnegative, bounded by the last-installed target,
divisible by one second, the tick interval is one second, and the target is
positive. -/
def inv1 (w : World1) : Prop :=
  0 ≤ w.m.timer.timeoutD ∧ w.m.timer.timeoutD ≤ w.target ∧
  nsPerSecond ∣ w.m.timer.timeoutD ∧ w.m.timer.interval = nsPerSecond ∧
  0 < w.target

/-- The invariant holds initially. -/
theorem inv1_init : inv1 world1Init :=
  ⟨by decide, by decide,
   ⟨20, by norm_num [world1Init, timerNewWithInterval, timeoutC1, nsPerSecond]⟩,
   rfl, by decide⟩

/-- The invariant is preserved by every delivered message. -/
theorem inv1_step (w : World1) (now : Int) (msg : Msg) (h : inv1 w) :
    inv1 (step1 w now msg) := by
  obtain ⟨h0, hle, hdvd, hint, hpos⟩ := h
  have hns : (0 : Int) < nsPerSecond := by norm_num [nsPerSecond]
  cases msg with
  | timerTick i =>
      simp only [step1, inv1, TimerM.update]
      split_ifs with hg hr <;> try dsimp only
      · exact ⟨h0, hle, hdvd, hint, hpos⟩
      · exact ⟨h0, hle, hdvd, hint, hpos⟩
      · have hrt : w.m.timer.runningB = true := by
          revert hr; cases w.m.timer.runningB <;> simp
        have hd : ¬ w.m.timer.timeoutD ≤ 0 := by
          simp only [TimerM.runningB, TimerM.timedoutB, Bool.and_eq_true,
            Bool.not_eq_true', decide_eq_false_iff_not] at hrt
          exact hrt.1
        have hDpos : 0 < w.m.timer.timeoutD := by omega
        have hIle : nsPerSecond ≤ w.m.timer.timeoutD := Int.le_of_dvd hDpos hdvd
        refine ⟨?_, ?_, ?_, hint, hpos⟩
        · rw [hint]; omega
        · rw [hint]; omega
        · rw [hint]; exact dvd_sub hdvd dvd_rfl
  | startStop i b =>
      simp only [step1, inv1, TimerM.update]
      split_ifs with hg <;> try dsimp only
      · exact ⟨h0, hle, hdvd, hint, hpos⟩
      · exact ⟨h0, hle, hdvd, hint, hpos⟩
  | timerTimeout i =>
      simp only [step1, inv1, TimerM.update]
      try dsimp only
      exact ⟨h0, hle, hdvd, hint, hpos⟩
  | keyMsg k =>
      simp only [step1, inv1]
      split_ifs <;> try dsimp only
      · exact ⟨h0, hle, hdvd, hint, hpos⟩
      · exact ⟨by decide, le_refl _, ⟨20, by norm_num [timeoutC1, nsPerSecond]⟩,
          hint, by decide⟩
      · exact ⟨h0, hle, hdvd, hint, hpos⟩
      · exact ⟨by decide, le_refl _, ⟨300, by norm_num [breakTimeC, nsPerSecond]⟩,
          hint, by decide⟩
      · exact ⟨by decide, le_refl _, ⟨20, by norm_num [timeoutC1, nsPerSecond]⟩,
          hint, by decide⟩
      · exact ⟨h0, hle, hdvd, hint, hpos⟩
  | frame =>
      simp only [step1, inv1]
      exact ⟨h0, hle, hdvd, hint, hpos⟩
  | resize width =>
      simp only [step1, inv1]
      try dsimp only
      exact ⟨h0, hle, hdvd, hint, hpos⟩
  | minuteTick =>
      simp only [step1, inv1]
      exact ⟨h0, hle, hdvd, hint, hpos⟩

/-- Every reachable state of variant 1 satisfies the inductive invariant. -/
theorem inv1_reach (w : World1) (h : Reach1 w) : inv1 w := by
  induction h with
  | init => exact inv1_init
  | step v now msg hv ih => exact inv1_step v now msg ih

/-- A concrete timed-out post-session state of variant 1: the clock has
counted down to zero and the raw running flag has been cleared. -/
def world1Done : World1 :=
  { world1Init with
    m := { world1Init.m with
            timer := { world1Init.m.timer with timeoutD := 0, running := false } } }

/-- A concrete state of variant 1 in which the Quit command has already been
processed. -/
def world1Quit : World1 :=
  { world1Init with m := { world1Init.m with quitting := true } }

/-- A concrete state of variant 2 in which the Quit command has already been
processed. -/
def world2Quit : World2 :=
  { world2Init with m := { world2Init.m with quitting := true } }

/-- Claim C1, counterexample: in variant 1 the percent stored while a tick is
processed is wall-clock based. Starting from the initial state with ten
wall-clock seconds elapsed, the first tick leaves 19 of 20 seconds remaining,
so the claimed formula (clamped (target - remaining) / target) yields 1/20,
but the program computes and displays 1/2. -/
theorem c1_counterexample :
    (step1 world1Init 10000000000 (Msg.timerTick 1)).m.timer.timeoutD
      = 19000000000 ∧
    (step1 world1Init 10000000000 (Msg.timerTick 1)).percent = 1 / 2 ∧
    (step1 world1Init 10000000000 (Msg.timerTick 1)).percent ≠
      clamp01 ((secondsQ timeoutC1 - secondsQ 19000000000) / secondsQ timeoutC1) := by
  refine ⟨by decide, ?_, ?_⟩ <;>
    norm_num [step1, world1Init, timerNewWithInterval, secondsQ, timeoutC1,
      nsPerSecond, clamp01]

/-- Claim C1, amended: in variant 2 the percent computed when a tick is
processed equals (target - remaining) / target with remaining read before the
tick's decrement, so it is a function of the clock's remaining time and the
target variable only; in variant 1 it is instead wall-clock elapsed over the
work constant, and neither variant clamps the stored value. -/
theorem c1_percent_state_function (w v : World2) (i j : Int)
    (ht : w.m.timer.timeoutD = v.m.timer.timeoutD)
    (hv : w.timeoutVar = v.timeoutVar) :
    (step2 w (Msg.timerTick i)).percent
      = percentV2 w.timeoutVar w.m.timer.timeoutD ∧
    (step2 w (Msg.timerTick i)).percent = (step2 v (Msg.timerTick j)).percent := by
  refine ⟨rfl, ?_⟩
  show percentV2 w.timeoutVar w.m.timer.timeoutD
      = percentV2 v.timeoutVar v.m.timer.timeoutD
  rw [ht, hv]

/-- Witness for the amended C1 theorem at the initial state of variant 2. -/
theorem c1_percent_state_function_sat :
    (step2 world2Init (Msg.timerTick 1)).percent
      = percentV2 world2Init.timeoutVar world2Init.m.timer.timeoutD ∧
    (step2 world2Init (Msg.timerTick 1)).percent
      = (step2 world2Init (Msg.timerTick 2)).percent :=
  c1_percent_state_function world2Init world2Init 1 2 rfl rfl

/-- Claim C2: once the clock has timed out, a further tick, any
start-stop message (the delivery of a Start, Stop or Toggle command), and the
toggle keys themselves leave the observable clock state (remaining, Running,
Timedout) unchanged. -/
theorem c2_timeout_terminal (w : World1) (now i : Int) (b : Bool)
    (h : w.m.timer.timedoutB = true) :
    (step1 w now (Msg.timerTick i)).m.timer.obs = w.m.timer.obs ∧
    (step1 w now (Msg.startStop i b)).m.timer.obs = w.m.timer.obs ∧
    (step1 w now (Msg.keyMsg Key.keyS)).m.timer = w.m.timer ∧
    (step1 w now (Msg.keyMsg Key.keySpace)).m.timer = w.m.timer := by
  have hrf : w.m.timer.runningB = false := timedout_not_running _ h
  have hd : w.m.timer.timeoutD ≤ 0 := by
    simpa [TimerM.timedoutB] using h
  refine ⟨?_, ?_, ?_, ?_⟩
  · have ht : w.m.timer.update (Msg.timerTick i) = w.m.timer := by
      simp only [TimerM.update]
      split_ifs <;> rfl
    simp only [step1, ht]
  · have ht : (w.m.timer.update (Msg.startStop i b)).obs = w.m.timer.obs := by
      simp only [TimerM.update]
      split_ifs with hg
      · rfl
      · simp [TimerM.obs, TimerM.runningB, TimerM.timedoutB, hd]
    simp only [step1, ht]
  · simp [step1, quitKeyHit, resetKeyHit, startKeyHit, stopKeyHit,
      pauseKeyHit, workKeyHit]
  · simp [step1, quitKeyHit, resetKeyHit, startKeyHit, stopKeyHit,
      pauseKeyHit, workKeyHit]

/-- Witness for C2 at a concrete timed-out state. -/
theorem c2_timeout_terminal_sat :
    world1Done.m.timer.timedoutB = true ∧
    ((step1 world1Done 0 (Msg.timerTick 1)).m.timer.obs = world1Done.m.timer.obs ∧
     (step1 world1Done 0 (Msg.startStop 1 true)).m.timer.obs
        = world1Done.m.timer.obs ∧
     (step1 world1Done 0 (Msg.keyMsg Key.keyS)).m.timer = world1Done.m.timer ∧
     (step1 world1Done 0 (Msg.keyMsg Key.keySpace)).m.timer = world1Done.m.timer) :=
  ⟨by decide, c2_timeout_terminal world1Done 0 1 true (by decide)⟩

/-- Claim C3, counterexample: in variant 1 the reset key pressed in the
initial (running) state leaves the clock running (the Stop command it builds
is discarded) and disables the Start control, contradicting the claim that
the clock is left stopped with Start enabled. -/
theorem c3_counterexample :
    (step1 world1Init 0 (Msg.keyMsg Key.keyR)).m.timer.runningB = true ∧
    (step1 world1Init 0 (Msg.keyMsg Key.keyR)).m.keymap.startE = false := by
  decide

/-- Claim C3, amended: in variant 2 the Reset command retargets the clock to
the work duration held in the timeout variable, zeroes the progress target
and enables the Start control, but the freshly created clock is running
immediately after the Reset; it only stops when the Stop message emitted by
the handler is subsequently processed. (Variant 1 in addition leaves the old
running flag untouched and disables Start.) -/
theorem c3_reset_amended (w : World2) (hr : w.m.keymap.resetE = true)
    (hp : 0 < w.timeoutVar) :
    (step2 w (Msg.keyMsg Key.keyR)).m.timer.timeoutD = w.timeoutVar ∧
    (step2 w (Msg.keyMsg Key.keyR)).m.progress.targetPercent = 0 ∧
    (step2 w (Msg.keyMsg Key.keyR)).m.keymap.startE = true ∧
    (step2 w (Msg.keyMsg Key.keyR)).m.timer.runningB = true ∧
    (step2 (step2 w (Msg.keyMsg Key.keyR))
        ((step2 w (Msg.keyMsg Key.keyR)).m.timer.stopMsg)).m.timer.runningB
      = false := by
  have hq : quitKeyHit Key.keyR = false := by decide
  have hk : resetKeyHit Key.keyR = true := by decide
  refine ⟨?_, ?_, ?_, ?_, ?_⟩
  · simp [step2, hq, hk, hr, timerNew, timerNewWithInterval]
  · norm_num [step2, hq, hk, hr, ProgressM.setPercent, clamp01]
  · simp [step2, hq, hk, hr]
  · simp [step2, hq, hk, hr, timerNew, timerNewWithInterval, TimerM.runningB,
      TimerM.timedoutB]
    omega
  · simp [step2, hq, hk, hr, timerNew, timerNewWithInterval, TimerM.stopMsg,
      TimerM.update, TimerM.runningB]

/-- Witness for the amended C3 theorem at the initial state of variant 2. -/
theorem c3_reset_amended_sat :
    world2Init.m.keymap.resetE = true ∧ 0 < world2Init.timeoutVar ∧
    ((step2 world2Init (Msg.keyMsg Key.keyR)).m.timer.timeoutD
        = world2Init.timeoutVar ∧
     (step2 world2Init (Msg.keyMsg Key.keyR)).m.progress.targetPercent = 0 ∧
     (step2 world2Init (Msg.keyMsg Key.keyR)).m.keymap.startE = true ∧
     (step2 world2Init (Msg.keyMsg Key.keyR)).m.timer.runningB = true ∧
     (step2 (step2 world2Init (Msg.keyMsg Key.keyR))
        ((step2 world2Init (Msg.keyMsg Key.keyR)).m.timer.stopMsg)).m.timer.runningB
        = false) :=
  ⟨by decide, by decide, c3_reset_amended world2Init (by decide) (by decide)⟩

/-- Claim C4, counterexample: in variant 1, pressing s while only Stop is
enabled emits the Toggle message startStop 1 false; delivering it stops the
clock and enables Start, and then pressing reset disables Start while Stop
stays disabled: a reachable state in which neither control is enabled. -/
theorem c4_counterexample :
    (step1 world1Init 0 (Msg.keyMsg Key.keyS)).m.timer.toggleMsg
      = Msg.startStop 1 false ∧
    (step1 (step1 (step1 world1Init 0 (Msg.keyMsg Key.keyS)) 1
        (Msg.startStop 1 false)) 2 (Msg.keyMsg Key.keyR)).m.keymap.startE
      = false ∧
    (step1 (step1 (step1 world1Init 0 (Msg.keyMsg Key.keyS)) 1
        (Msg.startStop 1 false)) 2 (Msg.keyMsg Key.keyR)).m.keymap.stopE
      = false := by
  decide

/-- Claim C4, amended: the exclusive enabled pair matching Running holds
immediately after any start-stop or timeout message is processed (the
handlers rederive both flags from Running there), but it is not an invariant
of all reachable states: the reset handler disables Start unconditionally. -/
theorem c4_flags_after_clock_msgs (w : World1) (now i : Int) (b : Bool) :
    ((step1 w now (Msg.startStop i b)).m.keymap.stopE
        = (step1 w now (Msg.startStop i b)).m.timer.runningB ∧
     (step1 w now (Msg.startStop i b)).m.keymap.startE
        = !(step1 w now (Msg.startStop i b)).m.timer.runningB ∧
     ((step1 w now (Msg.startStop i b)).m.keymap.stopE
        != (step1 w now (Msg.startStop i b)).m.keymap.startE) = true) ∧
    ((step1 w now (Msg.timerTimeout i)).m.keymap.stopE
        = (step1 w now (Msg.timerTimeout i)).m.timer.runningB ∧
     (step1 w now (Msg.timerTimeout i)).m.keymap.startE
        = !(step1 w now (Msg.timerTimeout i)).m.timer.runningB ∧
     ((step1 w now (Msg.timerTimeout i)).m.keymap.stopE
        != (step1 w now (Msg.timerTimeout i)).m.keymap.startE) = true) := by
  refine ⟨⟨rfl, rfl, ?_⟩, ⟨rfl, rfl, ?_⟩⟩
  · cases h : (w.m.timer.update (Msg.startStop i b)).runningB <;>
      simp [step1, h]
  · cases h : (w.m.timer.update (Msg.timerTimeout i)).runningB <;>
      simp [step1, h]

/-- Claim C5, counterexample: after the Quit command is processed (quitting
is true), a subsequently delivered p key still retargets the clock to the
break duration: commands are not ignored while quitting. -/
theorem c5_counterexample :
    (step1 world1Init 0 (Msg.keyMsg Key.keyQ)).m.quitting = true ∧
    (step1 (step1 world1Init 0 (Msg.keyMsg Key.keyQ)) 0
        (Msg.keyMsg Key.keyP)).m.timer.timeoutD
      ≠ (step1 world1Init 0 (Msg.keyMsg Key.keyQ)).m.timer.timeoutD := by
  decide

/-- Claim C5, amended: model.Update applies no quitting guard, so a command
delivered while quitting is true is processed normally; what does hold is
that quitting is monotone (no message ever resets it, in either variant) and
that the Quit handler itself changes nothing except setting quitting,
termination being effected by the runtime's quit signal rather than by the
state machine. -/
theorem c5_quit_not_guarded (w1 : World1) (w2 : World2) (now : Int)
    (msg1 msg2 : Msg) (hq1 : w1.m.quitting = true) (hq2 : w2.m.quitting = true)
    (he : w1.m.keymap.quitE = true) :
    (step1 w1 now msg1).m.quitting = true ∧
    (step2 w2 msg2).m.quitting = true ∧
    step1 w1 now (Msg.keyMsg Key.keyQ)
      = { w1 with m := { w1.m with quitting := true } } := by
  refine ⟨?_, ?_, ?_⟩
  · cases msg1 with
    | keyMsg k =>
        simp only [step1]
        split_ifs <;> simp [hq1]
    | timerTick i => simp [step1, hq1]
    | startStop i b => simp [step1, hq1]
    | timerTimeout i => simp [step1]
    | frame => simp [step1, hq1]
    | resize width => simp [step1, hq1]
    | minuteTick => simp [step1, hq1]
  · cases msg2 with
    | keyMsg k =>
        simp only [step2]
        split_ifs <;> simp [hq2]
    | timerTick i => simp [step2, hq2]
    | startStop i b => simp [step2, hq2]
    | timerTimeout i => simp [step2]
    | frame => simp [step2, hq2]
    | resize width => simp [step2, hq2]
    | minuteTick => simp [step2, hq2]
  · simp [step1, quitKeyHit, he]

/-- Witness for the amended C5 theorem at concrete quitting states. -/
theorem c5_quit_not_guarded_sat :
    world1Quit.m.quitting = true ∧ world2Quit.m.quitting = true ∧
    ((step1 world1Quit 0 (Msg.keyMsg Key.keyP)).m.quitting = true ∧
     (step2 world2Quit (Msg.keyMsg Key.keyP)).m.quitting = true ∧
     step1 world1Quit 0 (Msg.keyMsg Key.keyQ)
        = { world1Quit with m := { world1Quit.m with quitting := true } }) :=
  ⟨by decide, by decide,
   c5_quit_not_guarded world1Quit world2Quit 0 (Msg.keyMsg Key.keyP)
     (Msg.keyMsg Key.keyP) (by decide) (by decide) (by decide)⟩

/-- Claim C6, counterexample: in variant 1, after one tick at four elapsed
wall-clock seconds the stored percent is 1/5; pressing p then retargets the
clock to the break constant but the percent is not reset to 0. -/
theorem c6_counterexample :
    (step1 (step1 world1Init 4000000000 (Msg.timerTick 1)) 4000000000
        (Msg.keyMsg Key.keyP)).m.timer.timeoutD = breakTimeC ∧
    (step1 (step1 world1Init 4000000000 (Msg.timerTick 1)) 4000000000
        (Msg.keyMsg Key.keyP)).percent = 1 / 5 ∧
    (step1 (step1 world1Init 4000000000 (Msg.timerTick 1)) 4000000000
        (Msg.keyMsg Key.keyP)).percent ≠ 0 := by
  have hq : quitKeyHit Key.keyP = false := by decide
  have hk : resetKeyHit Key.keyP = false := by decide
  have hs : startKeyHit Key.keyP = false := by decide
  have ht : stopKeyHit Key.keyP = false := by decide
  have hh : pauseKeyHit Key.keyP = true := by decide
  refine ⟨?_, ?_, ?_⟩ <;>
    norm_num [step1, world1Init, timerNewWithInterval, TimerM.update,
      TimerM.runningB, TimerM.timedoutB, ProgressM.setPercent, clamp01,
      hq, hk, hs, ht, hh, secondsQ, timeoutC1, breakTimeC, nsPerSecond]

/-- Claim C6, amended: in variant 2 the p key retargets the clock to the
break constant, the freshly created clock is running at once and the progress
target is zeroed; in variant 1 the p key only assigns the break constant to
the remaining duration, leaving the raw running flag and the stored percent
untouched, and the clock starts only when the Start message emitted by the
handler is subsequently processed. -/
theorem c6_switch_break_amended (w2 : World2) (w1 : World1) (now : Int)
    (h2 : w2.m.keymap.pauseE = true) (h1 : w1.m.keymap.pauseE = true) :
    ((step2 w2 (Msg.keyMsg Key.keyP)).m.timer.timeoutD = breakTimeC ∧
     (step2 w2 (Msg.keyMsg Key.keyP)).m.timer.runningB = true ∧
     (step2 w2 (Msg.keyMsg Key.keyP)).m.progress.targetPercent = 0) ∧
    ((step1 w1 now (Msg.keyMsg Key.keyP)).m.timer.timeoutD = breakTimeC ∧
     (step1 w1 now (Msg.keyMsg Key.keyP)).m.timer.running = w1.m.timer.running ∧
     (step1 w1 now (Msg.keyMsg Key.keyP)).percent = w1.percent ∧
     (step1 (step1 w1 now (Msg.keyMsg Key.keyP)) now
        ((step1 w1 now (Msg.keyMsg Key.keyP)).m.timer.startMsg)).m.timer.runningB
       = true) := by
  have hq : quitKeyHit Key.keyP = false := by decide
  have hk : resetKeyHit Key.keyP = false := by decide
  have hs : startKeyHit Key.keyP = false := by decide
  have ht : stopKeyHit Key.keyP = false := by decide
  have hh : pauseKeyHit Key.keyP = true := by decide
  refine ⟨⟨?_, ?_, ?_⟩, ?_, ?_, ?_, ?_⟩
  · simp [step2, hq, hk, hs, ht, hh, h2, timerNew, timerNewWithInterval]
  · simp [step2, hq, hk, hs, ht, hh, h2, timerNew, timerNewWithInterval,
      TimerM.runningB, TimerM.timedoutB, breakTimeC, nsPerSecond]
  · norm_num [step2, hq, hk, hs, ht, hh, h2, ProgressM.setPercent, clamp01]
  · simp [step1, hq, hk, hs, ht, hh, h1]
  · simp [step1, hq, hk, hs, ht, hh, h1]
  · simp [step1, hq, hk, hs, ht, hh, h1]
  · simp [step1, hq, hk, hs, ht, hh, h1, TimerM.startMsg, TimerM.update,
      TimerM.runningB, TimerM.timedoutB, breakTimeC, nsPerSecond]

/-- Witness for the amended C6 theorem at the two initial states. -/
theorem c6_switch_break_amended_sat :
    world2Init.m.keymap.pauseE = true ∧ world1Init.m.keymap.pauseE = true ∧
    (((step2 world2Init (Msg.keyMsg Key.keyP)).m.timer.timeoutD = breakTimeC ∧
      (step2 world2Init (Msg.keyMsg Key.keyP)).m.timer.runningB = true ∧
      (step2 world2Init (Msg.keyMsg Key.keyP)).m.progress.targetPercent = 0) ∧
     ((step1 world1Init 0 (Msg.keyMsg Key.keyP)).m.timer.timeoutD = breakTimeC ∧
      (step1 world1Init 0 (Msg.keyMsg Key.keyP)).m.timer.running
        = world1Init.m.timer.running ∧
      (step1 world1Init 0 (Msg.keyMsg Key.keyP)).percent = world1Init.percent ∧
      (step1 (step1 world1Init 0 (Msg.keyMsg Key.keyP)) 0
        ((step1 world1Init 0 (Msg.keyMsg Key.keyP)).m.timer.startMsg)).m.timer.runningB
        = true)) :=
  ⟨by decide, by decide,
   c6_switch_break_amended world2Init world1Init 0 (by decide) (by decide)⟩

/-- Claim C7, counterexample: the percent computation has no clamp: in
variant 1, a tick processed thirty wall-clock seconds after start stores
percent 3/2, outside the unit interval. -/
theorem c7_counterexample :
    (step1 world1Init 30000000000 (Msg.timerTick 1)).percent = 3 / 2 ∧
    ¬ (step1 world1Init 30000000000 (Msg.timerTick 1)).percent ≤ 1 := by
  constructor <;>
    norm_num [step1, world1Init, secondsQ, timeoutC1, nsPerSecond]

/-- Claim C7, amended: variant 2's percent expression is bounded in the unit
interval whenever the remaining duration lies between 0 and the fixed
25-minute work target (the code has no zero-target guard, but the target
variable is the fixed positive constant), and it is exactly 0 when remaining
equals that target; a clock freshly retargeted to the break duration instead
yields 4/5, and variant 1's wall-clock percent is unbounded. -/
theorem c7_percent_bounds (r : Int) (h0 : 0 ≤ r) (h1 : r ≤ timeoutC2) :
    0 ≤ percentV2 timeoutC2 r ∧ percentV2 timeoutC2 r ≤ 1 ∧
    percentV2 timeoutC2 timeoutC2 = 0 ∧
    percentV2 timeoutC2 breakTimeC = 4 / 5 := by
  have hr0 : (0 : ℚ) ≤ (r : ℚ) := by exact_mod_cast h0
  have hr1 : (r : ℚ) ≤ 1500000000000 := by
    have := h1
    simp only [timeoutC2, nsPerSecond] at this
    exact_mod_cast this
  have hs : secondsQ timeoutC2 = 1500 := by
    norm_num [secondsQ, timeoutC2, nsPerSecond]
  have hsr : secondsQ r = (r : ℚ) / 1000000000 := by
    norm_num [secondsQ, nsPerSecond]
  have hb : (0 : ℚ) ≤ (r : ℚ) / 1000000000 := by positivity
  have hc : (r : ℚ) / 1000000000 ≤ 1500 := by
    rw [div_le_iff₀ (by norm_num : (0 : ℚ) < 1000000000)]
    linarith
  refine ⟨?_, ?_, ?_, ?_⟩
  · simp only [percentV2, hs, hsr]
    apply div_nonneg _ (by norm_num)
    linarith
  · simp only [percentV2, hs, hsr]
    rw [div_le_one (by norm_num : (0 : ℚ) < 1500)]
    linarith
  · norm_num [percentV2, secondsQ, timeoutC2, nsPerSecond]
  · norm_num [percentV2, secondsQ, timeoutC2, breakTimeC, nsPerSecond]

/-- Witness for the amended C7 theorem at five minutes remaining. -/
theorem c7_percent_bounds_sat :
    (0 : Int) ≤ 300000000000 ∧ (300000000000 : Int) ≤ timeoutC2 ∧
    (0 ≤ percentV2 timeoutC2 300000000000 ∧
     percentV2 timeoutC2 300000000000 ≤ 1 ∧
     percentV2 timeoutC2 timeoutC2 = 0 ∧
     percentV2 timeoutC2 breakTimeC = 4 / 5) :=
  ⟨by decide, by decide, c7_percent_bounds 300000000000 (by decide) (by decide)⟩

/-- Claim C8: in every reachable state of variant 1, the remaining duration
lies between 0 and the most recently installed target duration, the
timed-out flag holds exactly when remaining is 0, and the clock is never
observed running once timed out; this is preserved by every delivered
message (ticks, start-stop, timeout, every key, frame, resize). -/
theorem c8_clock_invariant (w : World1) (h : Reach1 w) :
    (0 ≤ w.m.timer.timeoutD ∧ w.m.timer.timeoutD ≤ w.target) ∧
    (w.m.timer.timedoutB = true ↔ w.m.timer.timeoutD = 0) ∧
    (w.m.timer.timedoutB = true → w.m.timer.runningB = false) := by
  obtain ⟨h0, hle, _, _, _⟩ := inv1_reach w h
  exact ⟨⟨h0, hle⟩, timedout_iff_zero _ h0,
    fun hh => timedout_not_running _ hh⟩

/-- Witness for C8 at the initial state. -/
theorem c8_clock_invariant_sat :
    (0 ≤ world1Init.m.timer.timeoutD ∧
     world1Init.m.timer.timeoutD ≤ world1Init.target) ∧
    (world1Init.m.timer.timedoutB = true ↔ world1Init.m.timer.timeoutD = 0) ∧
    (world1Init.m.timer.timedoutB = true → world1Init.m.timer.runningB = false) :=
  c8_clock_invariant world1Init Reach1.init

/-- Claim C9: a resize event changes only the rendering width: in both
variants the timer, the keymap enabled flags, the quitting flag, the progress
target percentage, the stored percent and the remaining package-level state
are identical before and after. -/
theorem c9_resize_pure_width (w1 : World1) (w2 : World2) (now width : Int) :
    ((step1 w1 now (Msg.resize width)).m.timer = w1.m.timer ∧
     (step1 w1 now (Msg.resize width)).m.keymap = w1.m.keymap ∧
     (step1 w1 now (Msg.resize width)).m.quitting = w1.m.quitting ∧
     (step1 w1 now (Msg.resize width)).m.progress.targetPercent
        = w1.m.progress.targetPercent ∧
     (step1 w1 now (Msg.resize width)).percent = w1.percent ∧
     (step1 w1 now (Msg.resize width)).startT = w1.startT ∧
     (step1 w1 now (Msg.resize width)).target = w1.target) ∧
    ((step2 w2 (Msg.resize width)).m.timer = w2.m.timer ∧
     (step2 w2 (Msg.resize width)).m.keymap = w2.m.keymap ∧
     (step2 w2 (Msg.resize width)).m.quitting = w2.m.quitting ∧
     (step2 w2 (Msg.resize width)).m.progress.targetPercent
        = w2.m.progress.targetPercent ∧
     (step2 w2 (Msg.resize width)).percent = w2.percent ∧
     (step2 w2 (Msg.resize width)).timeoutVar = w2.timeoutVar ∧
     (step2 w2 (Msg.resize width)).lastID = w2.lastID) :=
  ⟨⟨rfl, rfl, rfl, rfl, rfl, rfl, rfl⟩, ⟨rfl, rfl, rfl, rfl, rfl, rfl, rfl⟩⟩

/-- Claim C10: processing the timer's TimeoutMsg sets quitting to true in
both variants (so timeout and Quit both lead to the terminal quitting
state), while the timer itself is left unchanged by that message. -/
theorem c10_timeout_sets_quitting (w1 : World1) (w2 : World2) (now i j : Int) :
    (step1 w1 now (Msg.timerTimeout i)).m.quitting = true ∧
    (step2 w2 (Msg.timerTimeout j)).m.quitting = true ∧
    (step1 w1 now (Msg.timerTimeout i)).m.timer = w1.m.timer ∧
    (step2 w2 (Msg.timerTimeout j)).m.timer = w2.m.timer :=
  ⟨rfl, rfl, rfl, rfl⟩

end Pomodoro
